import Mathlib

/-
Shallow embedding of the RoomEase trust-score engine.

The embedded functions mirror the TypeScript source of the trust module
(getTrustLevel, canPerformAction, calculateTrustChange, adjustTrustScore,
handleChoreDispute, calculateWeeklyTrustBonus, getTrustRestrictions,
resetTrustScore).  The Firestore document store is modelled as an explicit
association list of user documents plus an append-only list of trust action
records; asynchronous calls become explicit state passing, and a fallible
fetch becomes an Option argument.  JavaScript truthiness of optional fields
is modelled explicitly where the source relies on it.
-/

namespace RoomEase

namespace TRUST_CONSTANTS

def INITIAL_SCORE : Int := 100

def MIN_SCORE : Int := 0

def MAX_SCORE : Int := 150

def THRESHOLD_LOW : Int := 30

def THRESHOLD_MEDIUM : Int := 70

def THRESHOLD_HIGH : Int := 100

namespace POINTS

def CHORE_COMPLETED : Int := 2

def CHORE_CONFIRMED : Int := 1

def CHORE_DISPUTED_VALID : Int := -5

def CHORE_DISPUTED_INVALID : Int := -1

def FALSE_COMPLETION : Int := -10

def BILL_PAID_ON_TIME : Int := 3

def BILL_PAID_LATE : Int := -2

def HELPFUL_ACTION : Int := 5

def WEEKLY_CONSISTENCY_BONUS : Int := 5

def MONTHLY_RELIABILITY_BONUS : Int := 10

end POINTS

end TRUST_CONSTANTS

/-- Trust tiers returned by getTrustLevel in the source. -/
inductive TrustLevel
  | critical
  | low
  | medium
  | high
  deriving DecidableEq, Repr

/-- Embeds getTrustLevel from the source: threshold comparisons low-to-high. -/
def getTrustLevel (score : Int) : TrustLevel :=
  if score < TRUST_CONSTANTS.THRESHOLD_LOW then .critical
  else if score < TRUST_CONSTANTS.THRESHOLD_MEDIUM then .low
  else if score < TRUST_CONSTANTS.THRESHOLD_HIGH then .medium
  else .high

/-- The TrustActionType union from the repository type declarations. -/
inductive TrustActionType
  | chore_completed
  | chore_confirmed
  | chore_disputed_valid
  | chore_disputed_invalid
  | false_completion
  | bill_paid_on_time
  | bill_paid_late
  | helpful_action
  | manual_adjustment
  deriving DecidableEq, Repr

/-- The optional context object passed to calculateTrustChange; every field is
optional in the source, so each is an Option here. -/
structure TrustContext where
  isRecurring : Option Bool
  wasOnTime : Option Bool
  consecutiveCount : Option Int
  disputeWasValid : Option Bool
  deriving DecidableEq, Repr

/-- JavaScript truthiness of an optional boolean: undefined is falsy. -/
def truthy : Option Bool → Bool
  | some b => b
  | none => false

/-- Embeds calculateTrustChange: maps an action type plus context to a point
delta.  The consecutiveCount guard mirrors the source condition
(context.consecutiveCount is truthy AND at least 5); a value of 0 is falsy in
JavaScript, which coincides with failing the at-least-5 test. -/
def calculateTrustChange (actionType : TrustActionType)
    (context : Option TrustContext) : Int :=
  match actionType with
  | .chore_completed =>
    let base1 : Int := TRUST_CONSTANTS.POINTS.CHORE_COMPLETED
    let base2 : Int :=
      if truthy (context.bind TrustContext.isRecurring) then base1 + 1 else base1
    (match context.bind TrustContext.consecutiveCount with
     | some c => if c ≠ 0 ∧ 5 ≤ c then base2 + min (c - 4) 3 else base2
     | none => base2)
  | .chore_confirmed => TRUST_CONSTANTS.POINTS.CHORE_CONFIRMED
  | .chore_disputed_valid => TRUST_CONSTANTS.POINTS.CHORE_DISPUTED_VALID
  | .chore_disputed_invalid => TRUST_CONSTANTS.POINTS.CHORE_DISPUTED_INVALID
  | .false_completion => TRUST_CONSTANTS.POINTS.FALSE_COMPLETION
  | .bill_paid_on_time =>
    if truthy (context.bind TrustContext.wasOnTime)
    then TRUST_CONSTANTS.POINTS.BILL_PAID_ON_TIME
    else TRUST_CONSTANTS.POINTS.BILL_PAID_LATE
  | .bill_paid_late => TRUST_CONSTANTS.POINTS.BILL_PAID_LATE
  | .helpful_action => TRUST_CONSTANTS.POINTS.HELPFUL_ACTION
  | .manual_adjustment => 0

/-- The five capability names accepted by canPerformAction. -/
inductive PermissionAction
  | create_chore
  | dispute_chore
  | manage_bills
  | invite_members
  | delete_items
  deriving DecidableEq, Repr

/-- Embeds canPerformAction: capability checks against score and tier. -/
def canPerformAction (score : Int) (action : PermissionAction) : Bool :=
  let level := getTrustLevel score
  match action with
  | .create_chore => decide (level ≠ TrustLevel.critical)
  | .dispute_chore => decide (TRUST_CONSTANTS.THRESHOLD_LOW ≤ score)
  | .manage_bills => decide (TRUST_CONSTANTS.THRESHOLD_MEDIUM ≤ score)
  | .invite_members => decide (TRUST_CONSTANTS.THRESHOLD_HIGH ≤ score)
  | .delete_items => decide (TRUST_CONSTANTS.THRESHOLD_MEDIUM ≤ score)

/-- The restriction object returned by getTrustRestrictions. -/
structure TrustRestrictions where
  canCreateChores : Bool
  canDisputeChores : Bool
  canManageBills : Bool
  canInviteMembers : Bool
  canDeleteItems : Bool
  maxChoresPerWeek : Option Int
  requiresConfirmation : Bool
  message : Option String
  deriving DecidableEq, Repr

/-- Embeds getTrustRestrictions: builds the base object, then adds the
level-specific cap and message exactly as the source switch does. -/
def getTrustRestrictions (score : Int) : TrustRestrictions :=
  let level := getTrustLevel score
  let restrictions : TrustRestrictions :=
    { canCreateChores := canPerformAction score .create_chore
      canDisputeChores := canPerformAction score .dispute_chore
      canManageBills := canPerformAction score .manage_bills
      canInviteMembers := canPerformAction score .invite_members
      canDeleteItems := canPerformAction score .delete_items
      maxChoresPerWeek := none
      requiresConfirmation := decide (level = .critical) || decide (level = .low)
      message := none }
  match level with
  | .critical =>
    { restrictions with
        maxChoresPerWeek := some 2
        message := some "Your trust score is critically low. Some features are restricted." }
  | .low =>
    { restrictions with
        maxChoresPerWeek := some 5
        message := some "Your trust score is low. Complete chores reliably to improve it." }
  | .medium =>
    { restrictions with
        message := some "Good standing! Keep up the reliable work." }
  | .high =>
    { restrictions with
        message := some "Excellent trustworthiness! You have full privileges." }

/-- The subset of a stored user document the trust engine touches: the
trustScore field may be absent from the document. -/
structure UserDoc where
  trustScore : Option Int
  deriving DecidableEq, Repr

/-- A trust action (audit) record as written by the trust engine; generated id
and timestamps are not modelled. -/
structure TrustAction where
  userId : String
  roomId : String
  action : TrustActionType
  points : Int
  reason : String
  relatedId : Option String
  createdBy : Option String
  deriving DecidableEq, Repr

/-- The document store as seen by the trust engine: the users collection as an
association list keyed by user id, and the append-only trustActions
collection. -/
structure Store where
  users : List (String × UserDoc)
  trustActions : List TrustAction
  deriving DecidableEq, Repr

/-- Fetch a user document by id (transaction.get on the users collection). -/
def lookupUser : List (String × UserDoc) → String → Option UserDoc
  | [], _ => none
  | (k, u) :: rest, uid => if k = uid then some u else lookupUser rest uid

/-- Overwrite a user document by id (transaction.update on the users
collection); inserts when absent, though the engine only updates existing
documents. -/
def setUser : List (String × UserDoc) → String → UserDoc → List (String × UserDoc)
  | [], uid, u => [(uid, u)]
  | (k, v) :: rest, uid, u =>
    if k = uid then (uid, u) :: rest else (k, v) :: setUser rest uid u

/-- The result object of adjustTrustScore (the error string is not modelled).
In the source, success false is only produced by a catch branch that never
fires, because the transaction wrapper turns a thrown error into a returned
value; see adjustTrustScore below. -/
structure AdjustResult where
  success : Bool
  newScore : Option Int
  deriving DecidableEq, Repr

/-- Embeds adjustTrustScore: computes the policy delta, then inside one
transaction reads the user, defaults a falsy stored score (missing or 0) to
INITIAL_SCORE, clamps the sum into bounds, writes the new score and appends
one trust action record carrying the raw pre-clamp delta.  A missing user
document makes the transaction callback throw, but runFirestoreTransaction
catches every error and returns it as a data-null value, and adjustTrustScore
returns success true with newScore result.data without ever inspecting
result.error; so a failed transaction still reports success true, with no new
score and the store untouched. -/
def adjustTrustScore (store : Store) (userId roomId : String)
    (actionType : TrustActionType) (reason : String)
    (relatedId : Option String) (createdBy : Option String)
    (context : Option TrustContext) : Store × AdjustResult :=
  let pointChange := calculateTrustChange actionType context
  match lookupUser store.users userId with
  | none => (store, { success := true, newScore := none })
  | some userData =>
    let currentScore :=
      match userData.trustScore with
      | some s => if s = 0 then TRUST_CONSTANTS.INITIAL_SCORE else s
      | none => TRUST_CONSTANTS.INITIAL_SCORE
    let newScore :=
      max TRUST_CONSTANTS.MIN_SCORE
        (min TRUST_CONSTANTS.MAX_SCORE (currentScore + pointChange))
    let trustAction : TrustAction :=
      { userId := userId
        roomId := roomId
        action := actionType
        points := pointChange
        reason := reason
        relatedId := relatedId
        createdBy := createdBy }
    ({ users := setUser store.users userId { trustScore := some newScore }
       trustActions := store.trustActions ++ [trustAction] },
     { success := true, newScore := some newScore })

/-- Chore status values from the repository type declarations. -/
inductive ChoreStatus
  | pending
  | in_progress
  | completed
  | confirmed
  | disputed
  | overdue
  | skipped
  deriving DecidableEq, Repr

/-- The fields of a chore document the trust handlers read. -/
structure Chore where
  id : String
  roomId : String
  title : String
  assignedTo : String
  recurring : Bool
  status : ChoreStatus
  deriving DecidableEq, Repr

/-- The success-or-error result of an action handler (error string not
modelled). -/
structure HandlerResult where
  success : Bool
  deriving DecidableEq, Repr

/-- Embeds handleChoreDispute: one ledger call against the completer when the
dispute is valid, otherwise two ledger calls (penalize the disputer, reward
the completer).  The source awaits the calls but never inspects their result
objects, and reaches the unconditional success return unless an exception is
thrown; the embedded ledger, like the source ledger, reports failure through
its result object rather than by throwing. -/
def handleChoreDispute (store : Store) (chore : Chore) (disputedBy : String)
    (isValidDispute : Bool) (resolution : String) : Store × HandlerResult :=
  if isValidDispute then
    let step1 := adjustTrustScore store chore.assignedTo chore.roomId
      .false_completion ("False completion disputed: " ++ chore.title)
      (some chore.id) (some disputedBy) none
    (step1.1, { success := true })
  else
    let step1 := adjustTrustScore store disputedBy chore.roomId
      .chore_disputed_invalid ("Invalid dispute raised: " ++ chore.title)
      (some chore.id) (some chore.assignedTo) none
    let step2 := adjustTrustScore step1.1 chore.assignedTo chore.roomId
      .chore_confirmed ("Chore completion confirmed: " ++ chore.title)
      (some chore.id) (some disputedBy) none
    (step2.1, { success := true })

/-- A chore counts toward the completion rate when completed or confirmed. -/
def isCompletedOrConfirmed (c : Chore) : Bool :=
  decide (c.status = .completed) || decide (c.status = .confirmed)

/-- Group the weekly chores by assignee, preserving first-seen order, as the
choresByUser record built in the source. -/
def addToGroup : List (String × List Chore) → Chore → List (String × List Chore)
  | [], c => [(c.assignedTo, [c])]
  | (k, cs) :: rest, c =>
    if k = c.assignedTo then (k, cs ++ [c]) :: rest else (k, cs) :: addToGroup rest c

def groupByUser (chores : List Chore) : List (String × List Chore) :=
  chores.foldl addToGroup []

/-- The sweep bonus test: completion rate at least 0.9 and at least 3 chores.
The source compares the double-precision quotient completed / total against
0.9; for integer list lengths far below 2 to the 50th this comparison agrees
exactly with the rational inequality 9 * total ≤ 10 * completed, which is the
form used here. -/
def qualifiesForBonus (userChores : List Chore) : Bool :=
  let completed := (userChores.filter isCompletedOrConfirmed).length
  decide (9 * userChores.length ≤ 10 * completed) && decide (3 ≤ userChores.length)

/-- Math.round of the completion percentage, modelled exactly on the integer
counts: round-half-up of 100 * completed / total. -/
def roundPercent (completed total : Nat) : Nat :=
  (200 * completed + total) / (2 * total)

/-- The reason string attached to a weekly consistency bonus. -/
def bonusReason (userChores : List Chore) : String :=
  "Weekly consistency bonus (" ++
    toString (roundPercent (userChores.filter isCompletedOrConfirmed).length
      userChores.length) ++ "% completion)"

/-- The per-user loop of calculateWeeklyTrustBonus: one independent ledger
call per qualifying assignee, counting every qualifying assignee whether or
not the ledger call succeeded (the source does not inspect the call result). -/
def sweepUsers (roomId : String) : Store → List (String × List Chore) → Store × Nat
  | store, [] => (store, 0)
  | store, (userId, userChores) :: rest =>
    if qualifiesForBonus userChores then
      let step := adjustTrustScore store userId roomId .helpful_action
        (bonusReason userChores) none (some "system") none
      let next := sweepUsers roomId step.1 rest
      (next.1, next.2 + 1)
    else
      sweepUsers roomId store rest

/-- The result object of calculateWeeklyTrustBonus. -/
structure SweepResult where
  success : Bool
  bonusesApplied : Option Nat
  deriving DecidableEq, Repr

/-- Embeds calculateWeeklyTrustBonus.  The getDocuments fetch of the chores
due this week is external I/O; its outcome is passed in as an Option, none
standing for the fetch error branch (weeklyChores.error or missing data), in
which case the sweep aborts before touching any user. -/
def calculateWeeklyTrustBonus (store : Store) (roomId : String)
    (weeklyChores : Option (List Chore)) : Store × SweepResult :=
  match weeklyChores with
  | none => (store, { success := false, bonusesApplied := none })
  | some chores =>
    let swept := sweepUsers roomId store (groupByUser chores)
    (swept.1, { success := true, bonusesApplied := some swept.2 })

/-- The success-or-error result of resetTrustScore. -/
structure ResetResult where
  success : Bool
  deriving DecidableEq, Repr

/-- Embeds resetTrustScore: clamps the requested score into bounds, writes it
directly via updateDocument (which fails when the user document is missing),
then appends one manual_adjustment record whose points are the clamped score
minus INITIAL_SCORE. -/
def resetTrustScore (store : Store) (userId roomId : String) (newScore : Int)
    (reason : String) (resetBy : String) : Store × ResetResult :=
  let clampedScore :=
    max TRUST_CONSTANTS.MIN_SCORE (min TRUST_CONSTANTS.MAX_SCORE newScore)
  match lookupUser store.users userId with
  | none => (store, { success := false })
  | some _ =>
    let users1 := setUser store.users userId { trustScore := some clampedScore }
    let record : TrustAction :=
      { userId := userId
        roomId := roomId
        action := .manual_adjustment
        points := clampedScore - TRUST_CONSTANTS.INITIAL_SCORE
        reason := reason
        relatedId := none
        createdBy := some resetBy }
    ({ users := users1, trustActions := store.trustActions ++ [record] },
     { success := true })

/-- The effective current score the ledger computes from a user document:
the stored value unless it is missing or 0 (both falsy in JavaScript), in
which case INITIAL_SCORE is used.  Definitionally equal to the currentScore
computation inside adjustTrustScore. -/
def effectiveScore (ud : UserDoc) : Int :=
  match ud.trustScore with
  | some s => if s = 0 then TRUST_CONSTANTS.INITIAL_SCORE else s
  | none => TRUST_CONSTANTS.INITIAL_SCORE

/-- A one-user store for concrete checks; the single user id is the literal
string u. -/
def singleUserStore (score : Option Int) : Store :=
  { users := [("u", { trustScore := score })], trustActions := [] }

/-- A store with no user documents at all. -/
def emptyStore : Store := { users := [], trustActions := [] }

/-- A concrete chore in room r for concrete checks. -/
def mkChore (id assignedTo : String) (status : ChoreStatus) : Chore :=
  { id := id
    roomId := "r"
    title := "mop"
    assignedTo := assignedTo
    recurring := false
    status := status }

/-- A disputed chore completed by alice, for the dispute-handler checks. -/
def disputedChore : Chore := mkChore "c1" "alice" .disputed

/-- A five-chore week: alice has 3 chores all completed or confirmed (rate 1.0),
bob has 2 completed chores (below the 3-chore floor). -/
def sweepChores : List Chore :=
  [mkChore "c1" "alice" .completed, mkChore "c2" "alice" .completed,
   mkChore "c3" "alice" .confirmed, mkChore "c4" "bob" .completed,
   mkChore "c5" "bob" .completed]

/-- A store holding alice and bob at score 100, for the sweep checks. -/
def sweepStore : Store :=
  { users := [("alice", { trustScore := some 100 }), ("bob", { trustScore := some 100 })]
    trustActions := [] }

/- ------------------------------------------------------------------ -/
/- Helper lemmas                                                       -/
/- ------------------------------------------------------------------ -/

theorem clamp_bounds (x : Int) : 0 ≤ max 0 (min 150 x) ∧ max 0 (min 150 x) ≤ 150 :=
  ⟨le_max_left 0 _, max_le (by norm_num) (min_le_left _ _)⟩

theorem lookupUser_setUser_self (users : List (String × UserDoc)) (uid : String)
    (u : UserDoc) : lookupUser (setUser users uid u) uid = some u := by
  induction users with
  | nil => simp [setUser, lookupUser]
  | cons head rest ih =>
    obtain ⟨k, v⟩ := head
    by_cases h : k = uid
    · simp [setUser, h, lookupUser]
    · simp [setUser, h, lookupUser, ih]

theorem lookupUser_setUser_of_ne (users : List (String × UserDoc)) (uid v : String)
    (u : UserDoc) (h : v ≠ uid) :
    lookupUser (setUser users uid u) v = lookupUser users v := by
  induction users with
  | nil => simp [setUser, lookupUser, Ne.symm h]
  | cons head rest ih =>
    obtain ⟨k, w⟩ := head
    by_cases hk : k = uid
    · subst hk
      simp [setUser, lookupUser, Ne.symm h]
    · simp [setUser, hk, lookupUser, ih]

theorem lookupUser_setUser_isSome (users : List (String × UserDoc)) (uid v : String)
    (u : UserDoc) (h : lookupUser users v ≠ none) :
    lookupUser (setUser users uid u) v ≠ none := by
  by_cases hv : v = uid
  · subst hv
    rw [lookupUser_setUser_self]
    simp
  · rw [lookupUser_setUser_of_ne _ _ _ _ hv]
    exact h

/-- Unfolding of adjustTrustScore when the user document is found. -/
theorem adjustTrustScore_found (store : Store) (userId roomId : String)
    (actionType : TrustActionType) (reason : String)
    (relatedId createdBy : Option String) (context : Option TrustContext)
    (ud : UserDoc) (h : lookupUser store.users userId = some ud) :
    adjustTrustScore store userId roomId actionType reason relatedId createdBy context =
      ({ users := setUser store.users userId
           { trustScore := some (max 0 (min 150
               (effectiveScore ud + calculateTrustChange actionType context))) }
         trustActions := store.trustActions ++
           [{ userId := userId, roomId := roomId, action := actionType,
              points := calculateTrustChange actionType context, reason := reason,
              relatedId := relatedId, createdBy := createdBy }] },
       { success := true,
         newScore := some (max 0 (min 150
           (effectiveScore ud + calculateTrustChange actionType context))) }) := by
  unfold adjustTrustScore
  rw [h]
  rfl

/-- Unfolding of adjustTrustScore when the user document is missing: the
thrown error is swallowed by the transaction wrapper, the store is untouched,
and the call still reports success true with no new score. -/
theorem adjustTrustScore_notFound (store : Store) (userId roomId : String)
    (actionType : TrustActionType) (reason : String)
    (relatedId createdBy : Option String) (context : Option TrustContext)
    (h : lookupUser store.users userId = none) :
    adjustTrustScore store userId roomId actionType reason relatedId createdBy context =
      (store, { success := true, newScore := none }) := by
  unfold adjustTrustScore
  rw [h]

theorem adjustTrustScore_preserves_found (store : Store) (userId roomId : String)
    (actionType : TrustActionType) (reason : String)
    (relatedId createdBy : Option String) (context : Option TrustContext)
    (v : String) (h : lookupUser store.users v ≠ none) :
    lookupUser (adjustTrustScore store userId roomId actionType reason relatedId
      createdBy context).1.users v ≠ none := by
  cases hlk : lookupUser store.users userId with
  | none =>
    rw [adjustTrustScore_notFound _ _ _ _ _ _ _ _ hlk]
    exact h
  | some ud =>
    rw [adjustTrustScore_found _ _ _ _ _ _ _ _ ud hlk]
    exact lookupUser_setUser_isSome _ _ _ _ h

/- ------------------------------------------------------------------ -/
/- Claim theorems                                                      -/
/- ------------------------------------------------------------------ -/

/-- Claim C4: getTrustLevel maps score < 30 to critical, 30 ≤ score < 70 to
low, 70 ≤ score < 100 to medium, and score ≥ 100 to high; in particular 29
maps to critical, 30 to low, 69 to low, 70 to medium, 99 to medium, and 100
to high. -/
theorem c4_getTrustLevel_tiers (score : Int) :
    (score < 30 → getTrustLevel score = .critical) ∧
    (30 ≤ score → score < 70 → getTrustLevel score = .low) ∧
    (70 ≤ score → score < 100 → getTrustLevel score = .medium) ∧
    (100 ≤ score → getTrustLevel score = .high) ∧
    getTrustLevel 29 = .critical ∧ getTrustLevel 30 = .low ∧
    getTrustLevel 69 = .low ∧ getTrustLevel 70 = .medium ∧
    getTrustLevel 99 = .medium ∧ getTrustLevel 100 = .high := by
  unfold getTrustLevel TRUST_CONSTANTS.THRESHOLD_LOW TRUST_CONSTANTS.THRESHOLD_MEDIUM
    TRUST_CONSTANTS.THRESHOLD_HIGH
  refine ⟨fun h => ?_, fun h1 h2 => ?_, fun h1 h2 => ?_, fun h => ?_,
    by decide, by decide, by decide, by decide, by decide, by decide⟩
  · rw [if_pos h]
  · rw [if_neg (by omega), if_pos h2]
  · rw [if_neg (by omega), if_neg (by omega), if_pos h2]
  · rw [if_neg (by omega), if_neg (by omega), if_neg (by omega)]

/-- Witness for C4 at concrete scores. -/
theorem c4_getTrustLevel_tiers_witness :
    getTrustLevel 12 = .critical ∧ getTrustLevel 45 = .low ∧
    getTrustLevel 85 = .medium ∧ getTrustLevel 150 = .high :=
  ⟨(c4_getTrustLevel_tiers 12).1 (by decide),
   (c4_getTrustLevel_tiers 45).2.1 (by decide) (by decide),
   (c4_getTrustLevel_tiers 85).2.2.1 (by decide) (by decide),
   (c4_getTrustLevel_tiers 150).2.2.2.1 (by decide)⟩

/-- Claim C5: for chore_completed the delta is base +2, plus 1 when the chore
is recurring, plus a streak bonus of min (consecutiveCount - 4) 3 when
consecutiveCount is at least 5 and 0 otherwise; the total always lies in
the interval from 2 to 6, and the streak bonus contribution is 0 at count 4,
1 at count 5, 3 at count 8, and still 3 at count 20. -/
theorem c5_chore_completed_delta (ctx : TrustContext) :
    calculateTrustChange .chore_completed (some ctx) =
      2 + (if ctx.isRecurring = some true then 1 else 0) +
        (match ctx.consecutiveCount with
         | some c => if 5 ≤ c then min (c - 4) 3 else 0
         | none => 0) ∧
    2 ≤ calculateTrustChange .chore_completed (some ctx) ∧
    calculateTrustChange .chore_completed (some ctx) ≤ 6 ∧
    calculateTrustChange .chore_completed
      (some { isRecurring := none, wasOnTime := none,
              consecutiveCount := some 4, disputeWasValid := none }) = 2 ∧
    calculateTrustChange .chore_completed
      (some { isRecurring := none, wasOnTime := none,
              consecutiveCount := some 5, disputeWasValid := none }) = 2 + 1 ∧
    calculateTrustChange .chore_completed
      (some { isRecurring := none, wasOnTime := none,
              consecutiveCount := some 8, disputeWasValid := none }) = 2 + 3 ∧
    calculateTrustChange .chore_completed
      (some { isRecurring := none, wasOnTime := none,
              consecutiveCount := some 20, disputeWasValid := none }) = 2 + 3 := by
  obtain ⟨ir, wot, cc, dv⟩ := ctx
  have hmain : calculateTrustChange .chore_completed (some ⟨ir, wot, cc, dv⟩) =
      2 + (if ir = some true then 1 else 0) +
        (match cc with
         | some c => if 5 ≤ c then min (c - 4) 3 else 0
         | none => 0) := by
    simp only [calculateTrustChange, Option.some_bind,
      TRUST_CONSTANTS.POINTS.CHORE_COMPLETED]
    rcases cc with _ | c
    · rcases ir with _ | b
      · simp [truthy]
      · rcases b <;> simp [truthy]
    · have hcond : ∀ base : Int,
          (if c ≠ 0 ∧ 5 ≤ c then base + min (c - 4) 3 else base) =
            base + (if 5 ≤ c then min (c - 4) 3 else 0) := by
        intro base
        by_cases h5 : 5 ≤ c
        · rw [if_pos ⟨by omega, h5⟩, if_pos h5]
        · rw [if_neg (by tauto), if_neg h5, add_zero]
      rcases ir with _ | b
      · simpa [truthy] using hcond 2
      · rcases b
        · simpa [truthy] using hcond 2
        · simpa [truthy, add_right_comm] using hcond 3
  refine ⟨hmain, ?_, ?_, by decide, by decide, by decide, by decide⟩
  · rw [hmain]
    rcases cc with _ | c
    · dsimp only
      split <;> omega
    · rcases le_or_lt (c - 4) 3 with h | h
      · simp only [min_eq_left h]
        split <;> split <;> omega
      · simp only [min_eq_right (le_of_lt h)]
        split <;> split <;> omega
  · rw [hmain]
    rcases cc with _ | c
    · dsimp only
      split <;> omega
    · rcases le_or_lt (c - 4) 3 with h | h
      · simp only [min_eq_left h]
        split <;> split <;> omega
      · simp only [min_eq_right (le_of_lt h)]
        split <;> split <;> omega

/-- Claim C6: for bill_paid_on_time the delta is +3 when the caller supplies
wasOnTime true and the late-payment penalty -2 when wasOnTime is false, so the
action name alone does not determine the sign of the delta. -/
theorem c6_bill_paid_on_time (ctx : TrustContext) :
    (ctx.wasOnTime = some true →
      calculateTrustChange .bill_paid_on_time (some ctx) = 3) ∧
    (ctx.wasOnTime = some false →
      calculateTrustChange .bill_paid_on_time (some ctx) = -2) := by
  obtain ⟨ir, wot, cc, dv⟩ := ctx
  constructor <;> intro h <;>
    simp only at h <;> subst h <;>
    simp [calculateTrustChange, truthy, TRUST_CONSTANTS.POINTS.BILL_PAID_ON_TIME,
      TRUST_CONSTANTS.POINTS.BILL_PAID_LATE]

/-- Witness for C6: one on-time and one late context, with deltas of opposite
sign. -/
theorem c6_bill_paid_on_time_witness :
    calculateTrustChange .bill_paid_on_time
      (some { isRecurring := none, wasOnTime := some true,
              consecutiveCount := none, disputeWasValid := none }) = 3 ∧
    calculateTrustChange .bill_paid_on_time
      (some { isRecurring := none, wasOnTime := some false,
              consecutiveCount := none, disputeWasValid := none }) = -2 :=
  ⟨(c6_bill_paid_on_time
      { isRecurring := none, wasOnTime := some true,
        consecutiveCount := none, disputeWasValid := none }).1 rfl,
   (c6_bill_paid_on_time
      { isRecurring := none, wasOnTime := some false,
        consecutiveCount := none, disputeWasValid := none }).2 rfl⟩

/-- Claim C9: getTrustRestrictions returns capability booleans matching the
permission table, requiresConfirmation exactly for critical and low tiers,
maxChoresPerWeek of 2 for critical and 5 for low and unset otherwise, plus a
message keyed by the tier; as a Lean function of the score it is pure by
construction. -/
theorem c9_getTrustRestrictions (score : Int) :
    ((getTrustRestrictions score).canCreateChores = true ↔
      getTrustLevel score ≠ .critical) ∧
    ((getTrustRestrictions score).canDisputeChores = true ↔ 30 ≤ score) ∧
    ((getTrustRestrictions score).canManageBills = true ↔ 70 ≤ score) ∧
    ((getTrustRestrictions score).canInviteMembers = true ↔ 100 ≤ score) ∧
    ((getTrustRestrictions score).canDeleteItems = true ↔ 70 ≤ score) ∧
    ((getTrustRestrictions score).requiresConfirmation = true ↔
      (getTrustLevel score = .critical ∨ getTrustLevel score = .low)) ∧
    (getTrustRestrictions score).maxChoresPerWeek =
      (match getTrustLevel score with
       | .critical => some 2
       | .low => some 5
       | .medium => none
       | .high => none) ∧
    (getTrustRestrictions score).message =
      some (match getTrustLevel score with
        | .critical => "Your trust score is critically low. Some features are restricted."
        | .low => "Your trust score is low. Complete chores reliably to improve it."
        | .medium => "Good standing! Keep up the reliable work."
        | .high => "Excellent trustworthiness! You have full privileges.") := by
  cases hl : getTrustLevel score <;>
    simp [getTrustRestrictions, canPerformAction, hl, TRUST_CONSTANTS.THRESHOLD_LOW,
      TRUST_CONSTANTS.THRESHOLD_MEDIUM, TRUST_CONSTANTS.THRESHOLD_HIGH]

/-- Witness for C9 at a concrete score. -/
theorem c9_getTrustRestrictions_witness :
    (getTrustRestrictions 50).canManageBills = false ∧
    (getTrustRestrictions 50).maxChoresPerWeek = some 5 := by
  have h := c9_getTrustRestrictions 50
  refine ⟨?_, ?_⟩
  · have hb := h.2.2.1
    simp only [show ¬((70 : Int) ≤ 50) by decide, iff_false] at hb
    simpa using hb
  · rw [h.2.2.2.2.2.2.1]
    decide

/-- Claim C1 (counterexample): for a user whose stored trustScore is exactly
0, an apply with the false_completion delta of -10 succeeds but stores 90
rather than the claimed max 0 (min 150 (0 + -10)) = 0, because the source
defaults a falsy stored score (0 as well as missing) to INITIAL_SCORE before
adding the delta.  So the claimed formula does not hold at every current
stored score s. -/
theorem c1_counterexample :
    lookupUser (singleUserStore (some 0)).users "u" = some { trustScore := some 0 } ∧
    calculateTrustChange .false_completion none = -10 ∧
    (adjustTrustScore (singleUserStore (some 0)) "u" "r" .false_completion
      "penalty" none none none).2.success = true ∧
    (adjustTrustScore (singleUserStore (some 0)) "u" "r" .false_completion
      "penalty" none none none).2.newScore = some 90 ∧
    (adjustTrustScore (singleUserStore (some 0)) "u" "r" .false_completion
      "penalty" none none none).2.newScore ≠ some (max 0 (min 150 (0 + -10))) := by
  decide

/-- Claim C1 (amended): for every nonzero current stored score s and policy
delta d, a successful apply stores exactly max 0 (min 150 (s + d)) as the new
trustScore (a stored score of 0, like a missing score field, is first replaced
by 100); and in every case the score this apply stores for the user lies in
the interval from 0 to 150. -/
theorem c1_adjust_clamps (store : Store) (userId roomId : String)
    (actionType : TrustActionType) (reason : String)
    (relatedId createdBy : Option String) (context : Option TrustContext)
    (s : Int) :
    (lookupUser store.users userId = some { trustScore := some s } → s ≠ 0 →
      (adjustTrustScore store userId roomId actionType reason relatedId createdBy
          context).2.newScore =
        some (max 0 (min 150 (s + calculateTrustChange actionType context))) ∧
      lookupUser (adjustTrustScore store userId roomId actionType reason relatedId
          createdBy context).1.users userId =
        some { trustScore := some (max 0 (min 150
                 (s + calculateTrustChange actionType context))) }) ∧
    (∀ n : Int,
      lookupUser (adjustTrustScore store userId roomId actionType reason relatedId
          createdBy context).1.users userId = some { trustScore := some n } →
      (adjustTrustScore store userId roomId actionType reason relatedId createdBy
          context).2.success = true →
      0 ≤ n ∧ n ≤ 150) := by
  constructor
  · intro h hs
    rw [adjustTrustScore_found _ _ _ _ _ _ _ _ _ h]
    have he : effectiveScore { trustScore := some s } = s := by
      simp [effectiveScore, hs]
    refine ⟨by rw [he], ?_⟩
    rw [lookupUser_setUser_self, he]
  · intro n hn hsucc
    cases hlk : lookupUser store.users userId with
    | none =>
      rw [adjustTrustScore_notFound _ _ _ _ _ _ _ _ hlk] at hn
      rw [hlk] at hn
      simp at hn
    | some ud =>
      rw [adjustTrustScore_found _ _ _ _ _ _ _ _ _ hlk, lookupUser_setUser_self] at hn
      simp only [Option.some.injEq, UserDoc.mk.injEq] at hn
      rw [← hn]
      exact clamp_bounds _

/-- Witness for the amended C1: a user stored at 40 hit with the -10
false_completion delta ends stored at the clamped 30. -/
theorem c1_adjust_clamps_witness :
    (adjustTrustScore (singleUserStore (some 40)) "u" "r" .false_completion
      "penalty" none none none).2.newScore =
      some (max 0 (min 150 (40 + calculateTrustChange .false_completion none))) :=
  ((c1_adjust_clamps (singleUserStore (some 40)) "u" "r" .false_completion
    "penalty" none none none 40).1 (by decide) (by decide)).1

/-- Claim C10: adjustTrustScore treats a stored trustScore of exactly 0 the
same as a missing score field; in both cases the base for the read-clamp-write
computation is the default 100, so the stored result is
max 0 (min 150 (100 + d)) rather than max 0 (min 150 (0 + d)). -/
theorem c10_zero_score_defaults (store : Store) (userId roomId : String)
    (actionType : TrustActionType) (reason : String)
    (relatedId createdBy : Option String) (context : Option TrustContext) :
    (lookupUser store.users userId = some { trustScore := some 0 } →
      (adjustTrustScore store userId roomId actionType reason relatedId createdBy
          context).2.newScore =
        some (max 0 (min 150 (100 + calculateTrustChange actionType context)))) ∧
    (lookupUser store.users userId = some { trustScore := none } →
      (adjustTrustScore store userId roomId actionType reason relatedId createdBy
          context).2.newScore =
        some (max 0 (min 150 (100 + calculateTrustChange actionType context)))) := by
  constructor <;> intro h <;> rw [adjustTrustScore_found _ _ _ _ _ _ _ _ _ h] <;> rfl

/-- Witness for C10: after a previous clamp to 0, the next -10 delta lands at
90 (best understood against max 0 (min 150 (0 - 10)) = 0, which it is not). -/
theorem c10_zero_score_defaults_witness :
    (adjustTrustScore (singleUserStore (some 0)) "u" "r" .false_completion
      "second penalty" none none none).2.newScore =
      some (max 0 (min 150 (100 + calculateTrustChange .false_completion none))) :=
  (c10_zero_score_defaults (singleUserStore (some 0)) "u" "r" .false_completion
    "second penalty" none none none).1 (by decide)

/-- Claim C2: every successful apply appends exactly one trust action record,
and its points field carries the raw pre-clamp policy delta, not the net score
change. -/
theorem c2_audit_record (store : Store) (userId roomId : String)
    (actionType : TrustActionType) (reason : String)
    (relatedId createdBy : Option String) (context : Option TrustContext)
    (ud : UserDoc) (h : lookupUser store.users userId = some ud) :
    (adjustTrustScore store userId roomId actionType reason relatedId createdBy
        context).2.success = true ∧
    (adjustTrustScore store userId roomId actionType reason relatedId createdBy
        context).1.trustActions =
      store.trustActions ++
        [{ userId := userId, roomId := roomId, action := actionType,
           points := calculateTrustChange actionType context, reason := reason,
           relatedId := relatedId, createdBy := createdBy }] := by
  rw [adjustTrustScore_found _ _ _ _ _ _ _ _ _ h]
  exact ⟨rfl, rfl⟩

/-- Witness for C2, the scenario from the claim: a user at score 5 hit with
false_completion ends at the clamped score 0 while the single audit record
still logs points -10. -/
theorem c2_audit_record_witness :
    (adjustTrustScore (singleUserStore (some 5)) "u" "r" .false_completion
        "penalty" none none none).1.trustActions =
      [{ userId := "u", roomId := "r", action := .false_completion,
         points := -10, reason := "penalty", relatedId := none,
         createdBy := none }] ∧
    (adjustTrustScore (singleUserStore (some 5)) "u" "r" .false_completion
        "penalty" none none none).2.newScore = some 0 :=
  ⟨(c2_audit_record (singleUserStore (some 5)) "u" "r" .false_completion
      "penalty" none none none { trustScore := some 5 } (by decide)).2,
   by decide⟩

/-- Claim C7: resetTrustScore clamps the requested newScore into the interval
from 0 to 150 (an out-of-range target is clamped, never rejected), writes the
clamped value directly, and appends one manual_adjustment audit record whose
points are clampedNewScore - 100, relative to INITIAL_SCORE and not to the
prior stored score. -/
theorem c7_reset (store : Store) (userId roomId : String) (newScore : Int)
    (reason resetBy : String) (ud : UserDoc)
    (h : lookupUser store.users userId = some ud) :
    (resetTrustScore store userId roomId newScore reason resetBy).2.success = true ∧
    lookupUser (resetTrustScore store userId roomId newScore reason
        resetBy).1.users userId =
      some { trustScore := some (max 0 (min 150 newScore)) } ∧
    (resetTrustScore store userId roomId newScore reason resetBy).1.trustActions =
      store.trustActions ++
        [{ userId := userId, roomId := roomId, action := .manual_adjustment,
           points := max 0 (min 150 newScore) - 100, reason := reason,
           relatedId := none, createdBy := some resetBy }] := by
  unfold resetTrustScore
  rw [h]
  exact ⟨rfl, lookupUser_setUser_self _ _ _, rfl⟩

/-- Witness for C7: resetting a user stored at 37 to 120 stores 120 and logs
points 20 (120 - 100, independent of the prior 37), and an out-of-range
request of 200 succeeds and stores the clamped 150. -/
theorem c7_reset_witness :
    (resetTrustScore (singleUserStore (some 37)) "u" "r" 120 "promotion"
        "admin").2.success = true ∧
    lookupUser (resetTrustScore (singleUserStore (some 37)) "u" "r" 120
        "promotion" "admin").1.users "u" = some { trustScore := some 120 } ∧
    (resetTrustScore (singleUserStore (some 37)) "u" "r" 120 "promotion"
        "admin").1.trustActions =
      [{ userId := "u", roomId := "r", action := .manual_adjustment,
         points := 20, reason := "promotion", relatedId := none,
         createdBy := some "admin" }] ∧
    (resetTrustScore (singleUserStore (some 37)) "u" "r" 200 "cap" "admin").2.success
      = true ∧
    lookupUser (resetTrustScore (singleUserStore (some 37)) "u" "r" 200 "cap"
        "admin").1.users "u" = some { trustScore := some 150 } := by
  have h1 := c7_reset (singleUserStore (some 37)) "u" "r" 120 "promotion" "admin"
    { trustScore := some 37 } (by decide)
  have h2 := c7_reset (singleUserStore (some 37)) "u" "r" 200 "cap" "admin"
    { trustScore := some 37 } (by decide)
  refine ⟨h1.1, ?_, ?_, h2.1, ?_⟩
  · rw [h1.2.1]
    decide
  · rw [h1.2.2]
    decide
  · rw [h2.2.1]
    decide

/-- Claim C3 (counterexample): with an empty user collection the dispute
ledger call mutates nothing (no score write, no audit record, no newScore),
i.e. it fails in substance, yet it already reports success true itself, the
dispute handler reports success true and leaves no trace of the failure, and
the weekly sweep still reports success and counts the qualifying user alice
as bonused (bonusesApplied = 1) although her ledger call changed nothing.
No failure report reaches any caller. -/
theorem c3_counterexample :
    (adjustTrustScore emptyStore "alice" "r" .false_completion
      ("False completion disputed: " ++ disputedChore.title) (some "c1")
      (some "bob") none).1 = emptyStore ∧
    (adjustTrustScore emptyStore "alice" "r" .false_completion
      ("False completion disputed: " ++ disputedChore.title) (some "c1")
      (some "bob") none).2.newScore = none ∧
    (adjustTrustScore emptyStore "alice" "r" .false_completion
      ("False completion disputed: " ++ disputedChore.title) (some "c1")
      (some "bob") none).2.success = true ∧
    (handleChoreDispute emptyStore disputedChore "bob" true "resolved").2.success
      = true ∧
    (handleChoreDispute emptyStore disputedChore "bob" true "resolved").1
      = emptyStore ∧
    (calculateWeeklyTrustBonus emptyStore "r" (some sweepChores)).2.success
      = true ∧
    (calculateWeeklyTrustBonus emptyStore "r" (some sweepChores)).2.bonusesApplied
      = some 1 ∧
    (calculateWeeklyTrustBonus emptyStore "r" (some sweepChores)).1
      = emptyStore := by
  decide

/-- Claim C3 (amended): a failed ledger transaction is swallowed already
inside adjustTrustScore, which reports success true with no newScore (the
transaction wrapper catches the thrown error and returns it as a value, and
adjustTrustScore never inspects it); handleChoreDispute reports success
regardless of the outcome of its one or two ledger calls, and the weekly
sweep reports success whenever the chore fetch succeeded, counting bonuses
without checking the ledger outcomes; the only failure a handler propagates
is the fetch failure, which aborts the sweep with an error and no mutation. -/
theorem c3_handlers_swallow (store : Store) (chore : Chore)
    (userId roomId disputedBy resolution reason : String)
    (actionType : TrustActionType) (relatedId createdBy : Option String)
    (context : Option TrustContext) (isValidDispute : Bool) :
    (lookupUser store.users userId = none →
      adjustTrustScore store userId roomId actionType reason relatedId createdBy
        context = (store, { success := true, newScore := none })) ∧
    (handleChoreDispute store chore disputedBy isValidDispute resolution).2.success
      = true ∧
    (∀ chores : List Chore,
      (calculateWeeklyTrustBonus store roomId (some chores)).2.success = true) ∧
    (calculateWeeklyTrustBonus store roomId none).2.success = false ∧
    (calculateWeeklyTrustBonus store roomId none).1 = store := by
  refine ⟨fun h => adjustTrustScore_notFound _ _ _ _ _ _ _ _ h, ?_,
    fun chores => rfl, rfl, rfl⟩
  cases isValidDispute <;> rfl

/-- Witness for the amended C3: on the empty store the ledger call on the
missing user alice reports success with no newScore, and the dispute handler
reports success. -/
theorem c3_handlers_swallow_witness :
    adjustTrustScore emptyStore "alice" "r" .false_completion "penalty" none
      none none = (emptyStore, { success := true, newScore := none }) ∧
    (handleChoreDispute emptyStore disputedChore "bob" false "resolved").2.success
      = true := by
  have h := c3_handlers_swallow emptyStore disputedChore "alice" "r" "bob"
    "resolved" "penalty" .false_completion none none none false
  exact ⟨h.1 (by decide), h.2.1⟩

/-- The per-user sweep loop counts one bonus per qualifying assignee,
independent of any ledger outcome. -/
theorem sweepUsers_count (roomId : String) (groups : List (String × List Chore)) :
    ∀ store : Store,
      (sweepUsers roomId store groups).2 =
        (groups.filter (fun p => qualifiesForBonus p.2)).length := by
  induction groups with
  | nil => intro store; rfl
  | cons p rest ih =>
    intro store
    obtain ⟨uid, cs⟩ := p
    by_cases hq : qualifiesForBonus cs = true
    · simp [sweepUsers, hq, List.filter_cons, ih]
    · simp [sweepUsers, hq, List.filter_cons, ih]

/-- When every grouped assignee has a user document, the sweep loop appends
exactly one helpful_action record per qualifying assignee, in order. -/
theorem sweepUsers_records (roomId : String) (groups : List (String × List Chore)) :
    ∀ store : Store, (∀ p ∈ groups, lookupUser store.users p.1 ≠ none) →
      (sweepUsers roomId store groups).1.trustActions =
        store.trustActions ++
          (groups.filter (fun p => qualifiesForBonus p.2)).map
            (fun p => { userId := p.1, roomId := roomId, action := .helpful_action,
                        points := calculateTrustChange .helpful_action none,
                        reason := bonusReason p.2, relatedId := none,
                        createdBy := some "system" }) := by
  induction groups with
  | nil => intro store _; simp [sweepUsers]
  | cons p rest ih =>
    intro store hx
    obtain ⟨uid, cs⟩ := p
    have huid : lookupUser store.users uid ≠ none :=
      hx (uid, cs) (List.mem_cons_self _ _)
    have hrest : ∀ q ∈ rest,
        lookupUser (adjustTrustScore store uid roomId .helpful_action
          (bonusReason cs) none (some "system") none).1.users q.1 ≠ none := by
      intro q hqmem
      exact adjustTrustScore_preserves_found _ _ _ _ _ _ _ _ _
        (hx q (List.mem_cons_of_mem _ hqmem))
    obtain ⟨ud, hud⟩ := Option.ne_none_iff_exists'.mp huid
    by_cases hq : qualifiesForBonus cs = true
    · simp only [sweepUsers, hq, if_true, List.filter_cons, List.map_cons]
      rw [ih _ hrest,
        adjustTrustScore_found store uid roomId .helpful_action
          (bonusReason cs) none (some "system") none ud hud]
      simp [List.append_assoc]
    · have hrest' : ∀ q ∈ rest, lookupUser store.users q.1 ≠ none := fun q hq2 =>
        hx q (List.mem_cons_of_mem _ hq2)
      simp only [sweepUsers, hq, if_false, List.filter_cons]
      simpa using ih _ hrest'

/-- Claim C8: the weekly sweep bonuses an assignee exactly when their
completion rate is at least 0.9 and they have at least 3 chores that week
(the qualifiesForBonus test), returns the count of bonuses applied, and a
failure to fetch the chores aborts the whole sweep with an error and no user
bonused; when every grouped assignee exists, the appended audit records are
exactly one +5 helpful_action record per qualifying assignee, attributed to
system. -/
theorem c8_weekly_sweep (store : Store) (roomId : String) (chores : List Chore) :
    calculateWeeklyTrustBonus store roomId none =
      (store, { success := false, bonusesApplied := none }) ∧
    (calculateWeeklyTrustBonus store roomId (some chores)).2.success = true ∧
    calculateTrustChange .helpful_action none = 5 ∧
    (calculateWeeklyTrustBonus store roomId (some chores)).2.bonusesApplied =
      some (((groupByUser chores).filter (fun p => qualifiesForBonus p.2)).length) ∧
    ((∀ p ∈ groupByUser chores, lookupUser store.users p.1 ≠ none) →
      (calculateWeeklyTrustBonus store roomId (some chores)).1.trustActions =
        store.trustActions ++
          ((groupByUser chores).filter (fun p => qualifiesForBonus p.2)).map
            (fun p => { userId := p.1, roomId := roomId, action := .helpful_action,
                        points := calculateTrustChange .helpful_action none,
                        reason := bonusReason p.2, relatedId := none,
                        createdBy := some "system" })) := by
  refine ⟨rfl, rfl, rfl, ?_, ?_⟩
  · show some (sweepUsers roomId store (groupByUser chores)).2 = _
    rw [sweepUsers_count]
  · intro hx
    show (sweepUsers roomId store (groupByUser chores)).1.trustActions = _
    exact sweepUsers_records roomId (groupByUser chores) store hx

/-- Witness for C8: in a store holding alice and bob, a week where alice has
3 of 3 chores completed or confirmed and bob only 2 chores yields exactly one
bonus, a single helpful_action record for alice. -/
theorem c8_weekly_sweep_witness :
    (∀ p ∈ groupByUser sweepChores, lookupUser sweepStore.users p.1 ≠ none) ∧
    (calculateWeeklyTrustBonus sweepStore "r" (some sweepChores)).2.bonusesApplied
      = some 1 ∧
    (calculateWeeklyTrustBonus sweepStore "r" (some sweepChores)).1.trustActions =
      [{ userId := "alice", roomId := "r", action := .helpful_action, points := 5,
         reason := "Weekly consistency bonus (100% completion)", relatedId := none,
         createdBy := some "system" }] := by
  have h := c8_weekly_sweep sweepStore "r" sweepChores
  refine ⟨by decide, ?_, ?_⟩
  · rw [h.2.2.2.1]
    decide
  · rw [h.2.2.2.2 (by decide)]
    decide

end RoomEase
